import Mathlib

/-!
Shallow embedding of `specklepy/objects/builtElements/rebar.py`:
the rebar representation generator (path flattener, multiplier, mode
dispatch and tube mesher of `RebarGroup`), together with the passive
geometry value holders it consumes.

Conventions of the embedding:
* Python floats become exact rationals (`ℚ`); the claims under study are
  about counts, index arithmetic and control flow, none about rounding.
* Python exceptions become `Except MeshError`: the generator's only
  failure points are the unguarded float division `d / length` when
  `length` is zero (Python `ZeroDivisionError`) and reading `.x/.y/.z`
  off a value that is not a 3D point (Python `AttributeError`).
* `cos`/`sin` of the circle angles are irrational, so the mesher is
  parameterised by two oracles `cosQ sinQ : ℕ → ℕ → ℚ` standing for
  `cos (2π i / n)` and `sin (2π i / n)`; every theorem below holds for
  all oracles, so nothing depends on their values.
-/

namespace Rebar

/-- A 3D point with `x`, `y`, `z` coordinates.
Modelled from the spec: the geometry module (not part of the sources at
hand) stores points as coordinate triples. -/
structure Point3 where
  x : ℚ
  y : ℚ
  z : ℚ
deriving DecidableEq

/-- Modelled from the spec: geometry `Line` is "an ordered pair of 3D
points (start, end)".  Each endpoint is kept as its flat coordinate list
`[x, y, z]`, because the generator also constructs `Line`s directly from
coordinate *slices* of a polyline (`Line(start=polyline.value[j:j+3], ...)`),
and a slice may be shorter than 3 when the polyline is malformed.
`end` is a Lean keyword, hence the field name `end_`. -/
structure Line where
  start : List ℚ
  end_ : List ℚ
deriving DecidableEq

/-- Modelled from the spec: geometry `Polyline` holds "a flat ordered
sequence of scalars, length a multiple of 3, interpreted as consecutive
3D points" in its `value` attribute. -/
structure Polyline where
  value : List ℚ
deriving DecidableEq

/-- Modelled from the spec: geometry `Mesh` holds a flat vertex scalar
list (triplets = 3D points) and a face-index buffer of
`[vertex_count, i1, ..., iN]` runs.  Indices are Python ints (`ℤ`). -/
structure Mesh where
  vertices : List ℚ
  faces : List ℤ
deriving DecidableEq

/-- `class RebarRepresentationMode: AS_LINE = "AsLine"`. -/
def RebarRepresentationMode.AS_LINE : String := "AsLine"

/-- `class RebarRepresentationMode: AS_VOLUME = "AsVolume"`. -/
def RebarRepresentationMode.AS_VOLUME : String := "AsVolume"

/-- `class RebarHook(Base)`: passive value object. -/
structure RebarHook where
  angle : ℚ := 0
  length : ℚ := 0
  radius : ℚ := 0
  units : String := "meters"

/-- `class RebarShape(Base)`: the shape template consumed by the
generator (`lines`, `polylines`, `bar_diameter`; the remaining fields are
inert data). -/
structure RebarShape where
  name : String := ""
  rebar_type : String := "Unknown"
  lines : List Line := []
  polylines : List Polyline := []
  bar_diameter : ℚ := 0
  units : String := "meters"

/-- The constructor arguments of `RebarGroup.__init__` that feed
representation generation (`shape`, `number`, `representation_mode`),
plus the inert fields stored alongside them. -/
structure RebarGroup where
  shape : RebarShape
  number : ℤ
  has_first_bar : Bool := true
  has_last_bar : Bool := true
  start_hook : Option RebarHook := none
  end_hook : Option RebarHook := none
  volume : ℚ := 0
  units : String := "meters"
  representation_mode : String := RebarRepresentationMode.AS_LINE

/-- The Python exceptions representation generation can raise. -/
inductive MeshError where
  /-- `AttributeError`: reading `.x`/`.y`/`.z` off a start/end value that
  is not a 3-coordinate point. -/
  | attributeError : MeshError
  /-- `ZeroDivisionError`: `unit_direction = [d / length ...]` with
  `length = 0`. -/
  | zeroDivisionError : MeshError
deriving DecidableEq

/-- Reading `[p.x, p.y, p.z]` off an endpoint: succeeds exactly when the
stored coordinate list is a 3D point (Python raises `AttributeError`
otherwise, the endpoint being a bare slice list). -/
def pointCoords : List ℚ → Option (ℚ × ℚ × ℚ)
  | [x, y, z] => some (x, y, z)
  | _ => none

/-- Python `range(0, stop, 3)` (over naturals; a nonpositive Python stop
corresponds to `stop = 0` here, both give the empty range). -/
def rangeStep3 (stop : ℕ) : List ℕ :=
  (List.range ((stop + 2) / 3)).map (fun k => 3 * k)

/-- Left-to-right effectful map over `Except`, the embedding of a Python
loop that appends `f a` for each element and lets the first exception
propagate. -/
def mapExcept (f : α → Except ε β) : List α → Except ε (List β)
  | [] => Except.ok []
  | a :: as =>
    match f a with
    | Except.error e => Except.error e
    | Except.ok b =>
      match mapExcept f as with
      | Except.error e => Except.error e
      | Except.ok bs => Except.ok (b :: bs)

/-- `RebarGroup._line_to_cylinder_mesh(line, num_segments=36)`.

`cosQ i n` / `sinQ i n` stand for `cos (2π i / n)` / `sin (2π i / n)`.
Exact-arithmetic notes: Python's `length = sqrt(sum d²)` is zero iff
`sum d² = 0`, which is the test used here, and the top-ring offset
`length * unit_direction[i] = length * (d[i] / length)` equals `d[i]`
exactly, which is how the top vertices are written. -/
def line_to_cylinder_mesh (cosQ sinQ : ℕ → ℕ → ℚ) (bar_diameter : ℚ)
    (line : Line) (num_segments : ℕ := 36) : Except MeshError Mesh :=
  match pointCoords line.start, pointCoords line.end_ with
  | some (sx, sy, sz), some (ex, ey, ez) =>
    let radius := bar_diameter / 2000
    let direction : List ℚ := [ex - sx, ey - sy, ez - sz]
    let length_sq : ℚ := (direction.map (fun d => d ^ 2)).sum
    if length_sq = 0 then
      Except.error MeshError.zeroDivisionError
    else
      let circle_vertices : List (ℚ × ℚ) :=
        (List.range num_segments).map (fun i =>
          (radius * cosQ i num_segments, radius * sinQ i num_segments))
      let vertices : List ℚ :=
        circle_vertices.flatMap (fun cv =>
          [sx + cv.1, sy + cv.2, sz,
           sx + cv.1 + (ex - sx), sy + cv.2 + (ey - sy), sz + (ez - sz)])
      let side_faces : List ℤ :=
        (List.range num_segments).flatMap (fun i =>
          let bottom1 : ℤ := (i : ℤ) * 2
          let top1 : ℤ := bottom1 + 1
          let bottom2 : ℤ := ((i : ℤ) * 2 + 2) % ((num_segments : ℤ) * 2)
          let top2 : ℤ := ((i : ℤ) * 2 + 3) % ((num_segments : ℤ) * 2)
          [3, bottom1, top1, bottom2] ++ [3, top1, top2, bottom2])
      let top_center : ℤ := (vertices.length : ℤ) / 2 - 1
      let bottom_center : ℤ := (vertices.length : ℤ) - 1
      let cap_faces : List ℤ :=
        (List.range num_segments).flatMap (fun i =>
          [3, bottom_center, (i : ℤ) * 2,
             ((i : ℤ) * 2 + 2) % ((num_segments : ℤ) * 2)] ++
          [3, top_center, ((i : ℤ) * 2 + 1) % ((num_segments : ℤ) * 2),
             (i : ℤ) * 2 + 1])
      Except.ok { vertices := vertices, faces := side_faces ++ cap_faces }
  | _, _ => Except.error MeshError.attributeError

/-- `RebarGroup._generate_line_representation`: `range(self.number)`
iterations (`toNat`: a negative Python `number` gives an empty range),
each appending every shape line verbatim and then, per polyline, one
`Line` per `j in range(0, len(value) - 3, 3)` built from the slices
`value[j:j+3]` and `value[j+3:j+6]`. -/
def generate_line_representation (shape : RebarShape) (number : ℤ) :
    List Line :=
  (List.range number.toNat).flatMap (fun _ =>
    shape.lines ++
    shape.polylines.flatMap (fun polyline =>
      (rangeStep3 (polyline.value.length - 3)).map (fun j =>
        { start := (polyline.value.drop j).take 3
          end_ := (polyline.value.drop (j + 3)).take 3 })))

/-- `RebarGroup._generate_volumetric_representation`: the same
lines-then-polylines traversal, each segment routed through
`_line_to_cylinder_mesh` (default `num_segments = 36`); the first
exception aborts the whole generation. -/
def generate_volumetric_representation (cosQ sinQ : ℕ → ℕ → ℚ)
    (shape : RebarShape) (number : ℤ) : Except MeshError (List Mesh) :=
  match mapExcept (fun _ =>
      match mapExcept
          (fun line => line_to_cylinder_mesh cosQ sinQ shape.bar_diameter line)
          shape.lines with
      | Except.error e => Except.error e
      | Except.ok fromLines =>
        match mapExcept (fun polyline =>
            mapExcept (fun j =>
                line_to_cylinder_mesh cosQ sinQ shape.bar_diameter
                  { start := (polyline.value.drop j).take 3
                    end_ := (polyline.value.drop (j + 3)).take 3 })
              (rangeStep3 (polyline.value.length - 3)))
            shape.polylines with
        | Except.error e => Except.error e
        | Except.ok fromPolylines =>
          Except.ok (fromLines ++ fromPolylines.flatten))
    (List.range number.toNat) with
  | Except.error e => Except.error e
  | Except.ok perInstance => Except.ok perInstance.flatten

/-- The value stored in `RebarGroup.representation`: a list of `Line`s in
line mode, a list of `Mesh`es in volume mode. -/
inductive Representation where
  | lines (ls : List Line) : Representation
  | meshes (ms : List Mesh) : Representation
deriving DecidableEq

/-- `RebarGroup.generate_representation`: dispatch on
`representation_mode == "AsVolume"`, any other string taking the line
branch. -/
def generate_representation (cosQ sinQ : ℕ → ℕ → ℚ) (g : RebarGroup) :
    Except MeshError Representation :=
  if g.representation_mode = RebarRepresentationMode.AS_VOLUME then
    (generate_volumetric_representation cosQ sinQ g.shape g.number).map
      Representation.meshes
  else
    Except.ok (Representation.lines
      (generate_line_representation g.shape g.number))

/-- Parse a face buffer made of `[3, a, b, c]` runs into its list of
triangles; `none` if the buffer is not a sequence of triangle runs. -/
def triangleFaces : List ℤ → Option (List (ℤ × ℤ × ℤ))
  | [] => some []
  | 3 :: a :: b :: c :: rest =>
      (triangleFaces rest).map (fun ts => (a, b, c) :: ts)
  | _ => none

/-- All vertex indices referenced by a face buffer of `[3, a, b, c]`
runs (empty for a buffer that does not parse). -/
def faceVertexIndices (faces : List ℤ) : List ℤ :=
  ((triangleFaces faces).getD []).flatMap (fun t => [t.1, t.2.1, t.2.2])

/-- The `k`-th 3D point of a polyline's flat coordinate list, as the
slice `value[3k : 3k+3]`. -/
def polylinePoint (p : Polyline) (k : ℕ) : List ℚ :=
  (p.value.drop (3 * k)).take 3

/-- The `[3, a, b, c]` face-buffer run of one triangle. -/
def triRun (t : ℤ × ℤ × ℤ) : List ℤ :=
  [3, t.1, t.2.1, t.2.2]

/-- The side triangles the mesher emits for resolution `N`, in order:
for each `i`, `(bottom1, top1, bottom2)` and `(top1, top2, bottom2)` with
`bottom1 = 2i`, `top1 = 2i+1`, `bottom2 = (2i+2) % 2N`,
`top2 = (2i+3) % 2N`. -/
def sideTriangles (N : ℕ) : List (ℤ × ℤ × ℤ) :=
  (List.range N).flatMap (fun i =>
    [((i : ℤ) * 2, (i : ℤ) * 2 + 1, ((i : ℤ) * 2 + 2) % ((N : ℤ) * 2)),
     ((i : ℤ) * 2 + 1, ((i : ℤ) * 2 + 3) % ((N : ℤ) * 2),
        ((i : ℤ) * 2 + 2) % ((N : ℤ) * 2))])

/-- The cap triangles the mesher emits for resolution `N`, in order: for
each `i`, a bottom triangle fanning from index `6N - 1`
(`len(vertices) - 1` over the flat scalar list) and a top triangle
fanning from index `3N - 1` (`len(vertices) // 2 - 1`). -/
def capTriangles (N : ℕ) : List (ℤ × ℤ × ℤ) :=
  (List.range N).flatMap (fun i =>
    [(6 * (N : ℤ) - 1, (i : ℤ) * 2, ((i : ℤ) * 2 + 2) % ((N : ℤ) * 2)),
     (3 * (N : ℤ) - 1, ((i : ℤ) * 2 + 1) % ((N : ℤ) * 2), (i : ℤ) * 2 + 1)])

/-- A concrete trig oracle (used to run the generator on concrete
inputs; no theorem depends on oracle values). -/
def trigZero : ℕ → ℕ → ℚ := fun _ _ => 0

theorem mapExcept_nil (f : α → Except ε β) : mapExcept f [] = Except.ok [] :=
  rfl

theorem mapExcept_ok_forall₂ (f : α → Except ε β) :
    ∀ (l : List α) (bs : List β), mapExcept f l = Except.ok bs →
    List.Forall₂ (fun a b => f a = Except.ok b) l bs := by
  intro l
  induction l with
  | nil =>
    intro bs h
    simp only [mapExcept] at h
    cases h
    exact List.Forall₂.nil
  | cons a as ih =>
    intro bs h
    simp only [mapExcept] at h
    cases hfa : f a with
    | error e => rw [hfa] at h; cases h
    | ok b =>
      rw [hfa] at h
      cases hrest : mapExcept f as with
      | error e => rw [hrest] at h; cases h
      | ok bs2 =>
        rw [hrest] at h
        cases h
        exact List.Forall₂.cons hfa (ih bs2 hrest)

theorem mapExcept_ok_length (f : α → Except ε β) (l : List α) (bs : List β)
    (h : mapExcept f l = Except.ok bs) : bs.length = l.length :=
  (mapExcept_ok_forall₂ f l bs h).length_eq.symm

theorem flatten_length_of_forall₂ (g : α → ℕ) (l : List α) (bs : List (List β))
    (h : List.Forall₂ (fun a b => List.length b = g a) l bs) :
    bs.flatten.length = (l.map g).sum := by
  induction h with
  | nil => rfl
  | cons hab _ ih => simp [List.flatten_cons, hab, ih]

theorem length_flatMap_const (f : α → List β) (l : List α) (c : ℕ)
    (h : ∀ a ∈ l, (f a).length = c) : (l.flatMap f).length = c * l.length := by
  rw [List.length_flatMap]
  rw [List.map_congr_left (g := fun _ => c) (fun a ha => by simp [h a ha])]
  simp [List.map_const, List.sum_replicate, Nat.mul_comm]

theorem triangleFaces_triRuns (ts : List (ℤ × ℤ × ℤ)) :
    triangleFaces (ts.flatMap triRun) = some ts := by
  induction ts with
  | nil => rfl
  | cons t ts ih =>
    rw [List.flatMap_cons]
    show triangleFaces (3 :: t.1 :: t.2.1 :: t.2.2 :: ts.flatMap triRun) =
      some (t :: ts)
    rw [triangleFaces, ih]
    rfl

theorem rangeStep3_eq (P : ℕ) :
    rangeStep3 (3 * P) = (List.range P).map (fun k => 3 * k) := by
  have h3 : (3 * P + 2) / 3 = P := by omega
  rw [rangeStep3, h3]

theorem rangeStep3_length (stop : ℕ) :
    (rangeStep3 stop).length = (stop + 2) / 3 := by
  simp [rangeStep3]

/-- The number of segments the flattening loop emits for one polyline:
the iteration count of `range(0, len(value) - 3, 3)`. -/
def segmentCount (p : Polyline) : ℕ :=
  (p.value.length - 3 + 2) / 3

/-- Structure of every successfully meshed tube: `6N` vertex scalars
(`2N` 3D points) and a face buffer made of the side-triangle runs
followed by the cap-triangle runs. -/
theorem line_to_cylinder_mesh_ok_struct (cosQ sinQ : ℕ → ℕ → ℚ) (bd : ℚ)
    (line : Line) (N : ℕ) (m : Mesh)
    (h : line_to_cylinder_mesh cosQ sinQ bd line N = Except.ok m) :
    m.vertices.length = 6 * N ∧
    m.faces = (sideTriangles N ++ capTriangles N).flatMap triRun := by
  cases hs : pointCoords line.start with
  | none => simp [line_to_cylinder_mesh, hs] at h
  | some s =>
    obtain ⟨sx, sy, sz⟩ := s
    cases he : pointCoords line.end_ with
    | none => simp [line_to_cylinder_mesh, hs, he] at h
    | some e =>
      obtain ⟨ex, ey, ez⟩ := e
      rw [line_to_cylinder_mesh] at h
      rw [hs, he] at h
      simp only [] at h
      split at h
      · cases h
      · injection h with hm
        subst hm
        have hlen := length_flatMap_const
          (fun cv : ℚ × ℚ => [sx + cv.1, sy + cv.2, sz,
            sx + cv.1 + (ex - sx), sy + cv.2 + (ey - sy), sz + (ez - sz)])
          ((List.range N).map (fun i =>
            (bd / 2000 * cosQ i N, bd / 2000 * sinQ i N)))
          6 (fun a _ => rfl)
        rw [List.length_map, List.length_range] at hlen
        refine ⟨hlen, ?_⟩
        have h1 : ((6 * N : ℕ) : ℤ) / 2 - 1 = 3 * (N : ℤ) - 1 := by
          push_cast; omega
        have h2 : ((6 * N : ℕ) : ℤ) - 1 = 6 * (N : ℤ) - 1 := by
          push_cast; ring
        simp only [hlen, h1, h2]
        rw [List.flatMap_append]
        congr 1
        · simp [sideTriangles, List.flatMap_assoc, triRun]
        · simp [capTriangles, List.flatMap_assoc, triRun]

theorem sideTriangles_length (N : ℕ) : (sideTriangles N).length = 2 * N := by
  rw [sideTriangles, length_flatMap_const
    (fun i : ℕ =>
      [((i : ℤ) * 2, (i : ℤ) * 2 + 1, ((i : ℤ) * 2 + 2) % ((N : ℤ) * 2)),
       ((i : ℤ) * 2 + 1, ((i : ℤ) * 2 + 3) % ((N : ℤ) * 2),
          ((i : ℤ) * 2 + 2) % ((N : ℤ) * 2))])
    (List.range N) 2 (fun a _ => rfl)]
  simp

theorem capTriangles_length (N : ℕ) : (capTriangles N).length = 2 * N := by
  rw [capTriangles, length_flatMap_const
    (fun i : ℕ =>
      [(6 * (N : ℤ) - 1, (i : ℤ) * 2, ((i : ℤ) * 2 + 2) % ((N : ℤ) * 2)),
       (3 * (N : ℤ) - 1, ((i : ℤ) * 2 + 1) % ((N : ℤ) * 2), (i : ℤ) * 2 + 1)])
    (List.range N) 2 (fun a _ => rfl)]
  simp

theorem generate_line_representation_length (shape : RebarShape) (number : ℤ) :
    (generate_line_representation shape number).length =
      number.toNat *
        (shape.lines.length + (shape.polylines.map segmentCount).sum) := by
  rw [generate_line_representation]
  rw [length_flatMap_const _ _
    (shape.lines.length + (shape.polylines.map segmentCount).sum) ?_]
  · simp [Nat.mul_comm]
  · intro a _
    rw [List.length_append]
    congr 1
    rw [List.length_flatMap]
    congr 1
    apply List.map_congr_left
    intro p _
    simp [segmentCount, rangeStep3_length]

theorem generate_volumetric_representation_ok_length (cosQ sinQ : ℕ → ℕ → ℚ)
    (shape : RebarShape) (number : ℤ) (ms : List Mesh)
    (h : generate_volumetric_representation cosQ sinQ shape number =
      Except.ok ms) :
    ms.length = number.toNat *
      (shape.lines.length + (shape.polylines.map segmentCount).sum) := by
  rw [generate_volumetric_representation] at h
  split at h
  · cases h
  · rename_i perInstance houter
    injection h with hm
    subst hm
    have hf := mapExcept_ok_forall₂ _ _ _ houter
    have hlens : List.Forall₂
        (fun (_ : ℕ) (r : List Mesh) => r.length =
          shape.lines.length + (shape.polylines.map segmentCount).sum)
        (List.range number.toNat) perInstance := by
      refine hf.imp ?_
      intro a r hr
      simp only [] at hr
      split at hr
      · cases hr
      · rename_i fromLines hlines
        split at hr
        · cases hr
        · rename_i fromPolylines hpolys
          injection hr with hr2
          subst hr2
          rw [List.length_append]
          congr 1
          · exact mapExcept_ok_length _ _ _ hlines
          · have hf2 := mapExcept_ok_forall₂ _ _ _ hpolys
            refine flatten_length_of_forall₂ segmentCount _ _ (hf2.imp ?_)
            intro p b hb
            rw [mapExcept_ok_length _ _ _ hb, rangeStep3_length]
            rfl
    rw [flatten_length_of_forall₂ _ _ _ hlens]
    simp [List.map_const, List.sum_replicate, Nat.mul_comm]

/-- The tube mesh the generator produces for the unit-Z segment with
`bar_diameter = 0` and `num_segments = 1` under the zero trig oracle:
2 vertex points (6 scalars) and 4 triangle runs, the two cap runs
fanning from the out-of-range indices `5 = 6·1 - 1` and `2 = 3·1 - 1`. -/
def mesh1 : Mesh :=
  { vertices := [0, 0, 0, 0, 0, 1]
    faces := [3, 0, 1, 0, 3, 1, 1, 0, 3, 5, 0, 0, 3, 2, 1, 1] }

theorem mesh1_eval :
    line_to_cylinder_mesh trigZero trigZero 0
      { start := [0, 0, 0], end_ := [0, 0, 1] } 1 = Except.ok mesh1 := by
  simp [line_to_cylinder_mesh, pointCoords, trigZero, mesh1, List.range_succ]

/-- C1, counterexample: at `num_segments = 1` the emitted tube mesh has
4 triangular faces, not `6 · 1 = 6` as the claim states (the side loop
emits `2N` triangles, not `4N`). -/
theorem C1_counterexample :
    line_to_cylinder_mesh trigZero trigZero 0
      { start := [0, 0, 0], end_ := [0, 0, 1] } 1 = Except.ok mesh1 ∧
    mesh1.vertices.length = 6 * 1 ∧
    Option.map List.length (triangleFaces mesh1.faces) = some 4 ∧
    ¬ (4 = 6 * 1) :=
  ⟨mesh1_eval, by decide, by decide, by decide⟩

/-- C1 (amended): every mesh the tube mesher returns for resolution `N`
has exactly `2N` ring vertices (`6N` scalar coordinates) and exactly
`4N` triangular faces in total: `2N` side triangles plus `2N` cap
triangles. -/
theorem C1_tube_mesh_counts (cosQ sinQ : ℕ → ℕ → ℚ) (bd : ℚ) (line : Line)
    (N : ℕ) (m : Mesh)
    (h : line_to_cylinder_mesh cosQ sinQ bd line N = Except.ok m) :
    m.vertices.length = 6 * N ∧
    triangleFaces m.faces = some (sideTriangles N ++ capTriangles N) ∧
    Option.map List.length (triangleFaces m.faces) = some (4 * N) ∧
    (sideTriangles N).length = 2 * N ∧ (capTriangles N).length = 2 * N := by
  obtain ⟨hv, hfaces⟩ := line_to_cylinder_mesh_ok_struct cosQ sinQ bd line N m h
  have ht : triangleFaces m.faces = some (sideTriangles N ++ capTriangles N) := by
    rw [hfaces]; exact triangleFaces_triRuns _
  refine ⟨hv, ht, ?_, sideTriangles_length N, capTriangles_length N⟩
  rw [ht]
  simp [List.length_append, sideTriangles_length, capTriangles_length]
  ring

/-- C1, witness: the amended count theorem evaluated at the concrete
`num_segments = 1` mesh. -/
theorem C1_tube_mesh_counts_witness :
    mesh1.vertices.length = 6 * 1 ∧
    triangleFaces mesh1.faces = some (sideTriangles 1 ++ capTriangles 1) ∧
    Option.map List.length (triangleFaces mesh1.faces) = some (4 * 1) ∧
    (sideTriangles 1).length = 2 * 1 ∧ (capTriangles 1).length = 2 * 1 :=
  C1_tube_mesh_counts trigZero trigZero 0
    { start := [0, 0, 0], end_ := [0, 0, 1] } 1 mesh1 mesh1_eval

/-- C2, counterexample: at `num_segments = 1` the face buffer references
vertex indices `5 = 6·1 - 1` and `2 = 3·1 - 1`, both outside the valid
point-index range `0..2·1 - 1`, so the cap-fan center indices are not
within range as the claim states. -/
theorem C2_counterexample :
    line_to_cylinder_mesh trigZero trigZero 0
      { start := [0, 0, 0], end_ := [0, 0, 1] } 1 = Except.ok mesh1 ∧
    (5 : ℤ) ∈ faceVertexIndices mesh1.faces ∧
    (2 : ℤ) ∈ faceVertexIndices mesh1.faces ∧
    ¬ ((5 : ℤ) ≤ 2 * 1 - 1) ∧ ¬ ((2 : ℤ) ≤ 2 * 1 - 1) :=
  ⟨mesh1_eval, by decide, by decide, by decide, by decide⟩

/-- C2 (amended): every vertex index in a generated tube mesh's face
buffer is nonnegative and either lies in the valid point-index range
`0..2N-1` or is one of the two cap-fan center indices `3N - 1`
(`len(vertices) // 2 - 1`) and `6N - 1` (`len(vertices) - 1`), computed
over the flat scalar vertex list; for every `N ≥ 1` both center indices
lie outside the valid range, so the cap faces reference nonexistent
vertices. -/
theorem C2_face_index_range (cosQ sinQ : ℕ → ℕ → ℚ) (bd : ℚ) (line : Line)
    (N : ℕ) (m : Mesh)
    (h : line_to_cylinder_mesh cosQ sinQ bd line N = Except.ok m) :
    (∀ idx ∈ faceVertexIndices m.faces,
      0 ≤ idx ∧
        (idx < 2 * (N : ℤ) ∨ idx = 3 * (N : ℤ) - 1 ∨ idx = 6 * (N : ℤ) - 1)) ∧
    (1 ≤ N →
      ¬ (3 * (N : ℤ) - 1 < 2 * (N : ℤ)) ∧
      ¬ (6 * (N : ℤ) - 1 < 2 * (N : ℤ))) := by
  obtain ⟨hv, hfaces⟩ := line_to_cylinder_mesh_ok_struct cosQ sinQ bd line N m h
  have ht : triangleFaces m.faces = some (sideTriangles N ++ capTriangles N) := by
    rw [hfaces]; exact triangleFaces_triRuns _
  constructor
  · intro idx hidx
    rw [faceVertexIndices, ht] at hidx
    simp only [Option.getD_some] at hidx
    rw [List.mem_flatMap] at hidx
    obtain ⟨t, htmem, hcomp⟩ := hidx
    rw [List.mem_append] at htmem
    cases htmem with
    | inl hside =>
      rw [sideTriangles, List.mem_flatMap] at hside
      obtain ⟨i, hi, hti⟩ := hside
      rw [List.mem_range] at hi
      have hiz : (i : ℤ) < (N : ℤ) := by exact_mod_cast hi
      have hNz : ((N : ℤ) * 2) ≠ 0 := by omega
      have h2N : (0 : ℤ) < (N : ℤ) * 2 := by omega
      have e1 := Int.emod_nonneg ((i : ℤ) * 2 + 2) hNz
      have e2 := Int.emod_lt_of_pos ((i : ℤ) * 2 + 2) h2N
      have e3 := Int.emod_nonneg ((i : ℤ) * 2 + 3) hNz
      have e4 := Int.emod_lt_of_pos ((i : ℤ) * 2 + 3) h2N
      simp only [List.mem_cons, List.not_mem_nil, or_false] at hti
      rcases hti with rfl | rfl <;>
        simp only [List.mem_cons, List.not_mem_nil, or_false] at hcomp <;>
        rcases hcomp with rfl | rfl | rfl <;>
        refine ⟨by omega, by omega⟩
    | inr hcap =>
      rw [capTriangles, List.mem_flatMap] at hcap
      obtain ⟨i, hi, hti⟩ := hcap
      rw [List.mem_range] at hi
      have hiz : (i : ℤ) < (N : ℤ) := by exact_mod_cast hi
      have hNz : ((N : ℤ) * 2) ≠ 0 := by omega
      have h2N : (0 : ℤ) < (N : ℤ) * 2 := by omega
      have e1 := Int.emod_nonneg ((i : ℤ) * 2 + 2) hNz
      have e2 := Int.emod_lt_of_pos ((i : ℤ) * 2 + 2) h2N
      have e5 := Int.emod_nonneg ((i : ℤ) * 2 + 1) hNz
      have e6 := Int.emod_lt_of_pos ((i : ℤ) * 2 + 1) h2N
      simp only [List.mem_cons, List.not_mem_nil, or_false] at hti
      rcases hti with rfl | rfl <;>
        simp only [List.mem_cons, List.not_mem_nil, or_false] at hcomp <;>
        rcases hcomp with rfl | rfl | rfl <;>
        refine ⟨by omega, by omega⟩
  · intro hN
    constructor <;> omega

/-- C2, witness: the amended index-range theorem evaluated at the
concrete `num_segments = 1` mesh. -/
theorem C2_face_index_range_witness :
    (∀ idx ∈ faceVertexIndices mesh1.faces,
      0 ≤ idx ∧
        (idx < 2 * ((1 : ℕ) : ℤ) ∨ idx = 3 * ((1 : ℕ) : ℤ) - 1 ∨
          idx = 6 * ((1 : ℕ) : ℤ) - 1)) ∧
    (1 ≤ 1 →
      ¬ (3 * ((1 : ℕ) : ℤ) - 1 < 2 * ((1 : ℕ) : ℤ)) ∧
      ¬ (6 * ((1 : ℕ) : ℤ) - 1 < 2 * ((1 : ℕ) : ℤ))) :=
  C2_face_index_range trigZero trigZero 0
    { start := [0, 0, 0], end_ := [0, 0, 1] } 1 mesh1 mesh1_eval

/-- C3, counterexample: a group with `number = -1` and a nonempty shape
generates an empty representation without any error, in both modes, so
generation does not fail with InvalidArgument. -/
theorem C3_counterexample :
    generate_representation trigZero trigZero
      { shape := { lines := [{ start := [1, 2, 3], end_ := [4, 5, 6] }] },
        number := -1,
        representation_mode := RebarRepresentationMode.AS_LINE } =
      Except.ok (Representation.lines []) ∧
    generate_representation trigZero trigZero
      { shape := { lines := [{ start := [1, 2, 3], end_ := [4, 5, 6] }] },
        number := -1,
        representation_mode := RebarRepresentationMode.AS_VOLUME } =
      Except.ok (Representation.meshes []) := by
  constructor
  · simp [generate_representation, RebarRepresentationMode.AS_LINE,
      RebarRepresentationMode.AS_VOLUME, generate_line_representation]
  · simp [generate_representation, RebarRepresentationMode.AS_VOLUME,
      generate_volumetric_representation, mapExcept, Except.map]

/-- C3 (amended): a negative `number` is silently treated as zero — the
per-instance loop `range(number)` runs zero times, so representation
generation returns the empty sequence in both modes and raises no
error; no InvalidArgument validation exists. -/
theorem C3_negative_number_silent (cosQ sinQ : ℕ → ℕ → ℚ)
    (shape : RebarShape) (number : ℤ) (h : number < 0) :
    generate_representation cosQ sinQ
      { shape := shape, number := number,
        representation_mode := RebarRepresentationMode.AS_LINE } =
      Except.ok (Representation.lines []) ∧
    generate_representation cosQ sinQ
      { shape := shape, number := number,
        representation_mode := RebarRepresentationMode.AS_VOLUME } =
      Except.ok (Representation.meshes []) := by
  have h0 : number.toNat = 0 := Int.toNat_of_nonpos (le_of_lt h)
  constructor
  · simp [generate_representation, RebarRepresentationMode.AS_LINE,
      RebarRepresentationMode.AS_VOLUME, generate_line_representation, h0]
  · simp [generate_representation, RebarRepresentationMode.AS_VOLUME,
      generate_volumetric_representation, h0, mapExcept, Except.map]

/-- C3, witness: the amended theorem evaluated at `number = -3` with a
one-polyline shape. -/
theorem C3_negative_number_silent_witness :
    generate_representation trigZero trigZero
      { shape := { polylines := [{ value := [0, 0, 0, 1, 0, 0] }] },
        number := -3,
        representation_mode := RebarRepresentationMode.AS_LINE } =
      Except.ok (Representation.lines []) ∧
    generate_representation trigZero trigZero
      { shape := { polylines := [{ value := [0, 0, 0, 1, 0, 0] }] },
        number := -3,
        representation_mode := RebarRepresentationMode.AS_VOLUME } =
      Except.ok (Representation.meshes []) :=
  C3_negative_number_silent trigZero trigZero
    { polylines := [{ value := [0, 0, 0, 1, 0, 0] }] } (-3) (by decide)

/-- C4, counterexample: a zero-length segment makes the tube mesher (and
volume-mode generation) fail with the unguarded division by zero
(`ZeroDivisionError` from `unit_direction = [d / length ...]`), not
with a DegenerateGeometry error — no such error exists in the code. -/
theorem C4_counterexample :
    line_to_cylinder_mesh trigZero trigZero 20
      { start := [0, 0, 0], end_ := [0, 0, 0] } 36 =
      Except.error MeshError.zeroDivisionError ∧
    generate_representation trigZero trigZero
      { shape := { lines := [{ start := [0, 0, 0], end_ := [0, 0, 0] }]
                   bar_diameter := 20 }
        number := 1
        representation_mode := RebarRepresentationMode.AS_VOLUME } =
      Except.error MeshError.zeroDivisionError := by
  constructor
  · simp [line_to_cylinder_mesh, pointCoords]
  · simp [generate_representation, RebarRepresentationMode.AS_VOLUME,
      generate_volumetric_representation, mapExcept, line_to_cylinder_mesh,
      pointCoords, List.range_succ, Except.map]

/-- C4 (amended): for every segment whose start point equals its end
point, the tube mesher fails with the unguarded `ZeroDivisionError`
raised by the `d / length` division, for every resolution and
diameter. -/
theorem C4_zero_length_division (cosQ sinQ : ℕ → ℕ → ℚ) (bd : ℚ)
    (line : Line) (N : ℕ) (x y z : ℚ)
    (hs : pointCoords line.start = some (x, y, z))
    (he : line.end_ = line.start) :
    line_to_cylinder_mesh cosQ sinQ bd line N =
      Except.error MeshError.zeroDivisionError := by
  rw [line_to_cylinder_mesh, he, hs]
  simp

/-- C4, witness: the amended theorem evaluated at the degenerate segment
`(1,2,3)-(1,2,3)` with diameter 20 and the default 36 segments. -/
theorem C4_zero_length_division_witness :
    line_to_cylinder_mesh trigZero trigZero 20
      { start := [1, 2, 3], end_ := [1, 2, 3] } 36 =
      Except.error MeshError.zeroDivisionError :=
  C4_zero_length_division trigZero trigZero 20
    { start := [1, 2, 3], end_ := [1, 2, 3] } 36 1 2 3 rfl rfl

/-- C7: for every representation mode other than `"AsVolume"` the master
generator raises nothing, returns the line representation, and agrees
exactly with what it returns for mode `"AsLine"` on the same shape and
number. -/
theorem C7_unrecognized_mode_as_line (cosQ sinQ : ℕ → ℕ → ℚ)
    (g : RebarGroup)
    (h : g.representation_mode ≠ RebarRepresentationMode.AS_VOLUME) :
    generate_representation cosQ sinQ g =
      Except.ok (Representation.lines
        (generate_line_representation g.shape g.number)) ∧
    generate_representation cosQ sinQ g =
      generate_representation cosQ sinQ
        { g with representation_mode := RebarRepresentationMode.AS_LINE } := by
  have h2 : RebarRepresentationMode.AS_LINE ≠ RebarRepresentationMode.AS_VOLUME := by
    decide
  refine ⟨by rw [generate_representation, if_neg h], ?_⟩
  rw [generate_representation, if_neg h, generate_representation]
  simp [if_neg h2]

/-- C7, witness: the mode theorem evaluated at the unrecognized mode
string `"bogus"` on a one-line shape. -/
theorem C7_unrecognized_mode_as_line_witness :
    generate_representation trigZero trigZero
      { shape := { lines := [{ start := [0, 0, 0], end_ := [1, 0, 0] }] },
        number := 1, representation_mode := "bogus" } =
      Except.ok (Representation.lines
        (generate_line_representation
          { lines := [{ start := [0, 0, 0], end_ := [1, 0, 0] }] } 1)) ∧
    generate_representation trigZero trigZero
      { shape := { lines := [{ start := [0, 0, 0], end_ := [1, 0, 0] }] },
        number := 1, representation_mode := "bogus" } =
      generate_representation trigZero trigZero
        { shape := { lines := [{ start := [0, 0, 0], end_ := [1, 0, 0] }] },
          number := 1,
          representation_mode := RebarRepresentationMode.AS_LINE } :=
  C7_unrecognized_mode_as_line trigZero trigZero
    { shape := { lines := [{ start := [0, 0, 0], end_ := [1, 0, 0] }] },
      number := 1, representation_mode := "bogus" } (by decide)

/-- C10: for every shape and every `number ≤ 0`, representation
generation returns the empty sequence in both `AsLine` and `AsVolume`
modes and raises no error, because `range(number)` iterates zero
times. -/
theorem C10_nonpositive_number_empty (cosQ sinQ : ℕ → ℕ → ℚ)
    (shape : RebarShape) (number : ℤ) (h : number ≤ 0) :
    generate_representation cosQ sinQ
      { shape := shape, number := number,
        representation_mode := RebarRepresentationMode.AS_LINE } =
      Except.ok (Representation.lines []) ∧
    generate_representation cosQ sinQ
      { shape := shape, number := number,
        representation_mode := RebarRepresentationMode.AS_VOLUME } =
      Except.ok (Representation.meshes []) := by
  have h0 : number.toNat = 0 := Int.toNat_of_nonpos h
  constructor
  · simp [generate_representation, RebarRepresentationMode.AS_LINE,
      RebarRepresentationMode.AS_VOLUME, generate_line_representation, h0]
  · simp [generate_representation, RebarRepresentationMode.AS_VOLUME,
      generate_volumetric_representation, h0, mapExcept, Except.map]

/-- C10, witness: the empty-generation theorem evaluated at
`number = 0` with a one-line shape. -/
theorem C10_nonpositive_number_empty_witness :
    generate_representation trigZero trigZero
      { shape := { lines := [{ start := [0, 0, 0], end_ := [0, 0, 1] }] },
        number := 0,
        representation_mode := RebarRepresentationMode.AS_LINE } =
      Except.ok (Representation.lines []) ∧
    generate_representation trigZero trigZero
      { shape := { lines := [{ start := [0, 0, 0], end_ := [0, 0, 1] }] },
        number := 0,
        representation_mode := RebarRepresentationMode.AS_VOLUME } =
      Except.ok (Representation.meshes []) :=
  C10_nonpositive_number_empty trigZero trigZero
    { lines := [{ start := [0, 0, 0], end_ := [0, 0, 1] }] } 0 (by decide)

/-- C5: for every polyline with flat coordinate array of length `3P`,
flattening emits exactly `P - 1` segments (zero when `P < 2`), the
`k`-th connecting point `k` to point `k + 1`, and a successful
volume-mode generation over the same polyline produces the same count
of meshes. -/
theorem C5_polyline_flattening (cosQ sinQ : ℕ → ℕ → ℚ) (p : Polyline) (P : ℕ)
    (hP : p.value.length = 3 * P) :
    (generate_line_representation { polylines := [p] } 1).length = P - 1 ∧
    (∀ k, k < P - 1 →
      (generate_line_representation { polylines := [p] } 1)[k]? =
        some { start := polylinePoint p k, end_ := polylinePoint p (k + 1) }) ∧
    (∀ ms, generate_volumetric_representation cosQ sinQ { polylines := [p] } 1 =
        Except.ok ms → ms.length = P - 1) := by
  have hstep : p.value.length - 3 = 3 * (P - 1) := by omega
  have hrep : generate_line_representation { polylines := [p] } 1 =
      (List.range (P - 1)).map (fun k =>
        { start := (p.value.drop (3 * k)).take 3
          end_ := (p.value.drop (3 * k + 3)).take 3 }) := by
    rw [generate_line_representation]
    simp only [Int.toNat_one, List.flatMap_cons, List.flatMap_nil,
      List.append_nil, List.nil_append]
    rw [hstep, rangeStep3_eq, List.map_map]
    simp [List.range_succ, Function.comp]
  refine ⟨by rw [hrep]; simp, ?_, ?_⟩
  · intro k hk
    rw [hrep, List.getElem?_map, List.getElem?_range hk]
    have h3 : 3 * (k + 1) = 3 * k + 3 := by ring
    simp [polylinePoint, h3]
  · intro ms hms
    rw [generate_volumetric_representation_ok_length cosQ sinQ _ 1 ms hms]
    simp [segmentCount, hP]
    omega

/-- C5, witness: the flattening theorem evaluated at the 3-point
polyline `[0,0,0, 1,0,0, 1,1,0]`, which yields two segments. -/
theorem C5_polyline_flattening_witness :
    (generate_line_representation
      { polylines := [{ value := [0, 0, 0, 1, 0, 0, 1, 1, 0] }] } 1).length =
        3 - 1 ∧
    (∀ k, k < 3 - 1 →
      (generate_line_representation
        { polylines := [{ value := [0, 0, 0, 1, 0, 0, 1, 1, 0] }] } 1)[k]? =
        some { start := polylinePoint { value := [0, 0, 0, 1, 0, 0, 1, 1, 0] } k
               end_ :=
                 polylinePoint { value := [0, 0, 0, 1, 0, 0, 1, 1, 0] } (k + 1) }) ∧
    (∀ ms, generate_volumetric_representation trigZero trigZero
        { polylines := [{ value := [0, 0, 0, 1, 0, 0, 1, 1, 0] }] } 1 =
        Except.ok ms → ms.length = 3 - 1) :=
  C5_polyline_flattening trigZero trigZero
    { value := [0, 0, 0, 1, 0, 0, 1, 1, 0] } 3 (by decide)

/-- C6: whenever volume-mode generation succeeds for a shape and a
non-negative number, it produces exactly as many meshes as line-mode
generation produces Line segments for the same shape and number. -/
theorem C6_volume_mesh_count (cosQ sinQ : ℕ → ℕ → ℚ) (shape : RebarShape)
    (number : ℤ) ( _h0 : 0 ≤ number) (ms : List Mesh)
    (h : generate_volumetric_representation cosQ sinQ shape number =
      Except.ok ms) :
    ms.length = (generate_line_representation shape number).length := by
  rw [generate_volumetric_representation_ok_length cosQ sinQ shape number ms h,
    generate_line_representation_length]

/-- C6, witness: the count theorem evaluated at a one-point-polyline
shape with `number = 2` (both modes produce zero elements). -/
theorem C6_volume_mesh_count_witness :
    ([] : List Mesh).length =
      (generate_line_representation
        { polylines := [{ value := [5, 6, 7] }] } 2).length :=
  C6_volume_mesh_count trigZero trigZero
    { polylines := [{ value := [5, 6, 7] }] } 2 (by decide) [] rfl

/-- C8, counterexample: at `num_segments = 1` the bottom cap run of the
face buffer fans from index `5` (`len(vertices) - 1` over the flat
scalar list), while `len(vertices) / 3 - 1 = 1`, so the bottom-center
index is not `len(vertices) / 3 - 1` in point-count terms as the claim
states. -/
theorem C8_counterexample :
    line_to_cylinder_mesh trigZero trigZero 0
      { start := [0, 0, 0], end_ := [0, 0, 1] } 1 = Except.ok mesh1 ∧
    ((mesh1.vertices.length : ℤ) / 3 - 1 = 1) ∧
    mesh1.faces.drop (8 * 1) = [3, 5, 0, 0, 3, 2, 1, 1] ∧
    ¬ ((5 : ℤ) = 1) :=
  ⟨mesh1_eval, by decide, by decide, by decide⟩

/-- C8 (amended): in every generated tube mesh the face buffer is the
side runs followed by the cap runs; the bottom cap fans from the
synthetic center index `6N - 1` (`len(vertices) - 1` over the flat
scalar list) to consecutive bottom-ring vertices `2i, (2i+2) % 2N`,
while the top cap uses center index `3N - 1` (`len(vertices)//2 - 1`)
with both remaining slots equal to the same top-ring vertex `2i + 1`
(`(2i+1) % 2N = 2i+1`), not a consecutive pair. -/
theorem C8_cap_fan_structure (cosQ sinQ : ℕ → ℕ → ℚ) (bd : ℚ) (line : Line)
    (N : ℕ) (m : Mesh)
    (h : line_to_cylinder_mesh cosQ sinQ bd line N = Except.ok m) :
    m.faces.take (8 * N) = (sideTriangles N).flatMap triRun ∧
    m.faces.drop (8 * N) = (capTriangles N).flatMap triRun ∧
    (∀ i, i < N → ((i : ℤ) * 2 + 1) % ((N : ℤ) * 2) = (i : ℤ) * 2 + 1) := by
  obtain ⟨hv, hfaces⟩ := line_to_cylinder_mesh_ok_struct cosQ sinQ bd line N m h
  rw [hfaces, List.flatMap_append]
  have hlen8 : ((sideTriangles N).flatMap triRun).length = 8 * N := by
    rw [length_flatMap_const triRun (sideTriangles N) 4 (fun a _ => rfl),
      sideTriangles_length]
    ring
  refine ⟨?_, ?_, ?_⟩
  · rw [← hlen8]
    exact List.take_left _ _
  · rw [← hlen8]
    exact List.drop_left _ _
  · intro i hi
    have hiz : (i : ℤ) < (N : ℤ) := by exact_mod_cast hi
    apply Int.emod_eq_of_lt <;> omega

/-- C8, witness: the cap-structure theorem evaluated at the concrete
`num_segments = 1` mesh. -/
theorem C8_cap_fan_structure_witness :
    mesh1.faces.take (8 * 1) = (sideTriangles 1).flatMap triRun ∧
    mesh1.faces.drop (8 * 1) = (capTriangles 1).flatMap triRun ∧
    (∀ i : ℕ, i < 1 →
      ((i : ℤ) * 2 + 1) % (((1 : ℕ) : ℤ) * 2) = (i : ℤ) * 2 + 1) :=
  C8_cap_fan_structure trigZero trigZero 0
    { start := [0, 0, 0], end_ := [0, 0, 1] } 1 mesh1 mesh1_eval

/-- C9, counterexample: a polyline whose flat coordinate array has
length 5 (not a multiple of 3) is not rejected: line-mode generation
succeeds with one segment whose endpoint is the truncated 2-scalar
slice `[1, 1]`, raising no InvalidArgument. -/
theorem C9_counterexample :
    generate_representation trigZero trigZero
      { shape := { polylines := [{ value := [0, 0, 0, 1, 1] }] },
        number := 1,
        representation_mode := RebarRepresentationMode.AS_LINE } =
      Except.ok (Representation.lines
        [{ start := [0, 0, 0], end_ := [1, 1] }]) := by
  simp [generate_representation, RebarRepresentationMode.AS_LINE,
    RebarRepresentationMode.AS_VOLUME, generate_line_representation,
    rangeStep3, List.range_succ]

/-- C9 (amended): representation generation performs no validation of
polyline lengths: for a polyline of flat length `3q + r` with
`r ∈ {1, 2}`, line-mode generation succeeds (no error), emits exactly
`q` segments, and the last segment's endpoint is the truncated slice of
`r < 3` scalars. -/
theorem C9_no_polyline_validation (cosQ sinQ : ℕ → ℕ → ℚ) (p : Polyline)
    (q r : ℕ) (hlen : p.value.length = 3 * q + r) (hr : r = 1 ∨ r = 2) :
    generate_representation cosQ sinQ
      { shape := { polylines := [p] }, number := 1,
        representation_mode := RebarRepresentationMode.AS_LINE } =
      Except.ok (Representation.lines
        (generate_line_representation { polylines := [p] } 1)) ∧
    (generate_line_representation { polylines := [p] } 1).length = q ∧
    (1 ≤ q →
      (generate_line_representation { polylines := [p] } 1)[q - 1]? =
        some { start := polylinePoint p (q - 1)
               end_ := (p.value.drop (3 * q)).take 3 } ∧
      ((p.value.drop (3 * q)).take 3).length = r) := by
  have hcnt : (p.value.length - 3 + 2) / 3 = q := by omega
  have hrep : generate_line_representation { polylines := [p] } 1 =
      (List.range q).map (fun k =>
        { start := (p.value.drop (3 * k)).take 3
          end_ := (p.value.drop (3 * k + 3)).take 3 }) := by
    rw [generate_line_representation]
    simp only [Int.toNat_one, List.flatMap_cons, List.flatMap_nil,
      List.append_nil, List.nil_append]
    rw [rangeStep3, hcnt, List.map_map]
    simp [List.range_succ, Function.comp]
  refine ⟨?_, by rw [hrep]; simp, ?_⟩
  · rw [generate_representation]
    simp [RebarRepresentationMode.AS_LINE, RebarRepresentationMode.AS_VOLUME]
  · intro hq
    have hk : q - 1 < q := by omega
    constructor
    · rw [hrep, List.getElem?_map, List.getElem?_range hk]
      have h3 : 3 * (q - 1) + 3 = 3 * q := by omega
      simp [polylinePoint, h3]
    · rw [List.length_take, List.length_drop, hlen]
      omega

/-- C9, witness: the no-validation theorem evaluated at the length-5
polyline `[0,0,0, 1,1]` (`q = 1`, `r = 2`). -/
theorem C9_no_polyline_validation_witness :
    generate_representation trigZero trigZero
      { shape := { polylines := [{ value := [0, 0, 0, 1, 1] }] }, number := 1,
        representation_mode := RebarRepresentationMode.AS_LINE } =
      Except.ok (Representation.lines
        (generate_line_representation
          { polylines := [{ value := [0, 0, 0, 1, 1] }] } 1)) ∧
    (generate_line_representation
      { polylines := [{ value := [0, 0, 0, 1, 1] }] } 1).length = 1 ∧
    (1 ≤ 1 →
      (generate_line_representation
        { polylines := [{ value := [0, 0, 0, 1, 1] }] } 1)[1 - 1]? =
        some { start := polylinePoint { value := [0, 0, 0, 1, 1] } (1 - 1)
               end_ := (([0, 0, 0, 1, 1] : List ℚ).drop (3 * 1)).take 3 } ∧
      ((([0, 0, 0, 1, 1] : List ℚ).drop (3 * 1)).take 3).length = 2) :=
  C9_no_polyline_validation trigZero trigZero
    { value := [0, 0, 0, 1, 1] } 1 2 (by decide) (by decide)

end Rebar
